import Mathlib

/-!
# Verification of the ORCH invocation plan/verify core

Shallow embedding of `orch/scripts/verify-invocation.py`: the request
classifier (`parse_request`), agent selector (`get_agents_for_request`),
plan builder (`create_invocation_plan`), verifier
(`verify_invocation_completeness`) and confirmation gate
(`get_confirmation`, modelled as its pure decision `get_confirmation_level`).

Modelling conventions:
* Python strings are Lean `String`; `needle in hay` on lowered strings is
  `strContains hay needle` (substring containment on the character lists).
* Python `list`s are Lean `List String`; dict iteration order (insertion
  order) is the association-list order.
* Python `list(set(xs))` returns the distinct elements of `xs` in an
  unspecified (hash-dependent) order; we model it with Mathlib's
  `List.dedup`, which preserves membership and guarantees `Nodup` — the
  only properties the program relies on.
* Wall-clock time (`time.time()`) has no bearing on any verification
  field other than `actual_time`; that field is modelled as 0.
* Numeric rates and the completion rate are modelled over `ℚ`.
* The human-readable warning / issue f-strings carry exactly the data of
  the constructors of `Warning` / `Issue` below; we model them by those
  constructors.
-/

/-- Is `needle` a prefix of `hay` (character lists)?  Models the prefix
check underlying Python's substring operator. -/
def charsIsPre : List Char → List Char → Bool
  | [], _ => true
  | _ :: _, [] => false
  | a :: as, b :: bs => a == b && charsIsPre as bs

/-- Is `needle` an infix of `hay` (character lists)? -/
def charsIsInfix (needle : List Char) : List Char → Bool
  | [] => charsIsPre needle []
  | b :: bs => charsIsPre needle (b :: bs) || charsIsInfix needle bs

/-- Python `needle in hay` for strings. -/
def strContains (hay needle : String) : Bool :=
  charsIsInfix needle.data hay.data

/-- Python `str.lower()`, modelled per character.  `Char.toLower` agrees
with Python on ASCII, which covers every phrase and keyword the program
compares (the comparison itself is over arbitrary strings). -/
def strToLower (s : String) : String :=
  ⟨s.data.map Char.toLower⟩

/-- An alias entry's phrase field: the config allows a single phrase
string or a list of phrases (the `isinstance(phrases, list)` branch in
`parse_request`). -/
inductive Phrases where
  | single (phrase : String)
  | many (phrases : List String)
deriving DecidableEq

/-- The `agents` field of an invocation rule: the literal marker `"all"` or a
literal list (a rule with the field absent is `lit []`, the Python
`rule.get("agents", [])` default). -/
inductive AgentsSpec where
  | all : AgentsSpec
  | lit (agents : List String) : AgentsSpec
deriving DecidableEq

/-- One `safety_checks.complete_groups` entry. -/
structure GroupConfig where
  trigger_agents : List String
  must_include : List String
deriving DecidableEq

/-- The configuration document (`orch-config.yaml`), restricted to the
fields the embedded functions read.  Optional numeric fields are `Option`
with the source's `.get(key, default)` defaults applied at use sites. -/
structure Config where
  invocation_aliases : List (String × Phrases)
  invocation_rules : List (String × AgentsSpec)
  presets : List (String × List String)
  complete_groups : List (String × GroupConfig)
  require_confirmation_above : Option Nat
  require_double_confirmation_above : Option Nat
  time_per_agent : Option ℚ
  time_overhead : Option ℚ
  estimated_cost_per_agent : Option ℚ

/-- The manifest (`orch-team-manifest.json`), restricted to the fields the
embedded functions read: the keys of `manifest["agents"]` and
`manifest["validation"]["critical_agents_always_include"]`. -/
structure Manifest where
  agents : List String
  critical_agents : List String

/-- The data carried by the warning strings built in
`create_invocation_plan` (lines 198–206 of the source). -/
inductive Warning where
  | criticalMissing (agents : List String)
  | addedForCompleteness (agents : List String)
  | largeInvocation (count : Nat) (estimatedTime : ℚ)
deriving DecidableEq

/-- The data carried by the issue strings built in
`verify_invocation_completeness` (lines 293–301 of the source). -/
inductive Issue where
  | criticalSkipped (agents : List String)
  | lowCompletion (rate : ℚ)
deriving DecidableEq

/-- The `InvocationPlan` dataclass. -/
structure InvocationPlan where
  request_text : String
  request_type : String
  agents_to_invoke : List String
  estimated_time : ℚ
  estimated_cost : ℚ
  requires_confirmation : Bool
  critical_agents_included : Bool
  warnings : List Warning

/-- The `InvocationResult` dataclass. -/
structure InvocationResult where
  plan : InvocationPlan
  agents_invoked : List String
  agents_failed : List String
  agents_skipped : List String
  actual_time : ℚ
  actual_cost : ℚ
  success : Bool
  issues : List Issue

/-- Does the alias entry's phrase set hit the (already lowercased) request
text?  The list branch checks each phrase; the single-string branch checks
it directly; both lower the phrase first. -/
def phrases_hit (request_lower : String) : Phrases → Bool
  | .many ps => ps.any fun p => strContains request_lower (strToLower p)
  | .single p => strContains request_lower (strToLower p)

/-- The alias loop of `parse_request`: first alias group (in declared
order) whose phrases hit the request wins. -/
def find_alias (request_lower : String) : List (String × Phrases) → Option String
  | [] => none
  | (tag, ph) :: rest =>
    if phrases_hit request_lower ph then some tag
    else find_alias request_lower rest

/-- Embedding of `InvocationVerifier.parse_request` (source lines 67–100). -/
def parse_request (cfg : Config) (request_text : String) : String :=
  let request_lower := strToLower request_text
  match find_alias request_lower cfg.invocation_aliases with
  | some tag => tag
  | none =>
    if strContains request_lower "security" then "security_review"
    else if strContains request_lower "leadership" || strContains request_lower "executive" then
      "leadership_review"
    else if strContains request_lower "technical" && strContains request_lower "review" then
      "technical_review"
    else if strContains request_lower "product" then "product_review"
    else if strContains request_lower "ai" || strContains request_lower "ml" then "ai_ml_review"
    else if strContains request_lower "compliance" then "compliance_review"
    else if ["review", "evaluate", "assess", "analyze"].any (fun w => strContains request_lower w) then
      "whole_team"
    else "custom"

/-- Embedding of `InvocationVerifier.get_agents_for_request` (source lines 102–122). -/
def get_agents_for_request (cfg : Config) (m : Manifest) (request_type : String) : List String :=
  match cfg.invocation_rules.lookup request_type with
  | some .all => m.agents
  | some (.lit agents) => agents
  | none =>
    match cfg.presets.lookup request_type with
    | some agents => agents
    | none => m.agents

/-- Embedding of `InvocationVerifier.check_critical_agents` (source lines 124–134). -/
def check_critical_agents (m : Manifest) (agents_list : List String) : Bool × List String :=
  let missing_critical := m.critical_agents.filter fun c => decide (c ∉ agents_list)
  (missing_critical.isEmpty, missing_critical)

/-- Embedding of `InvocationVerifier.check_group_completeness` (source lines 136–152):
collect, over the groups in declared order, the `must_include` members
missing from the list whenever some trigger agent is present, then
deduplicate (`list(set(suggestions))`). -/
def check_group_completeness (cfg : Config) (agents_list : List String) : List String :=
  let suggestions := cfg.complete_groups.flatMap fun p =>
    if p.2.trigger_agents.any (fun a => decide (a ∈ agents_list)) then
      p.2.must_include.filter fun r => decide (r ∉ agents_list)
    else []
  suggestions.dedup

/-- Embedding of `InvocationVerifier.estimate_resources` (source lines 154–165). -/
def estimate_resources (cfg : Config) (agents_list : List String) : ℚ × ℚ :=
  let time_per_agent := cfg.time_per_agent.getD (1 / 2)
  let time_overhead := cfg.time_overhead.getD 2
  let cost_per_agent := cfg.estimated_cost_per_agent.getD (1 / 10)
  ((agents_list.length : ℚ) * time_per_agent + time_overhead,
   (agents_list.length : ℚ) * cost_per_agent)

/-- Threshold `safety_checks.require_confirmation_above` with the source default 10
(source line 192). -/
def confirmThreshold (cfg : Config) : Nat :=
  cfg.require_confirmation_above.getD 10

/-- Threshold `safety_checks.require_double_confirmation_above` with the source
default 25 (source line 402). -/
def doubleConfirmThreshold (cfg : Config) : Nat :=
  cfg.require_double_confirmation_above.getD 25

/-- Embedding of `InvocationVerifier.create_invocation_plan` (source lines 167–220). -/
def create_invocation_plan (cfg : Config) (m : Manifest) (request_text : String) :
    InvocationPlan :=
  let request_type := parse_request cfg request_text
  let agents_list₀ := get_agents_for_request cfg m request_type
  let critical := check_critical_agents m agents_list₀
  let critical_included := critical.1
  let missing_critical := critical.2
  let suggested_additions := check_group_completeness cfg agents_list₀
  -- `if suggested_additions: agents_list.extend(...); agents_list = list(set(agents_list))`
  let agents_list :=
    if suggested_additions.isEmpty then agents_list₀
    else (agents_list₀ ++ suggested_additions).dedup
  let est := estimate_resources cfg agents_list
  let requires_confirmation := decide (agents_list.length > confirmThreshold cfg)
  let warnings :=
    (if missing_critical.isEmpty then [] else [Warning.criticalMissing missing_critical])
    ++ (if suggested_additions.isEmpty then []
        else [Warning.addedForCompleteness suggested_additions])
    ++ (if agents_list.length > 25 then [Warning.largeInvocation agents_list.length est.1]
        else [])
  { request_text := request_text
    request_type := request_type
    agents_to_invoke := agents_list
    estimated_time := est.1
    estimated_cost := est.2
    requires_confirmation := requires_confirmation
    critical_agents_included := critical_included
    warnings := warnings }

/-- The completion-rate expression of source lines 298, 335 and 373:
`len(agents_invoked) / len(plan.agents_to_invoke) if plan.agents_to_invoke else 0`. -/
def completion_rate (plan_agents invoked : List String) : ℚ :=
  if plan_agents.isEmpty then 0
  else mkRat invoked.length plan_agents.length

/-- Embedding of `InvocationVerifier.verify_invocation_completeness` (source lines
265–315).  The source takes no failed-set input: `agents_failed` is the
empty list initialised at line 272 and never extended. -/
def verify_invocation_completeness (cfg : Config) (m : Manifest) (plan : InvocationPlan)
    (actually_invoked : List String) : InvocationResult :=
  let agents_invoked := plan.agents_to_invoke.filter fun a => decide (a ∈ actually_invoked)
  let agents_failed : List String := []
  let agents_skipped := plan.agents_to_invoke.filter fun a => decide (a ∉ actually_invoked)
  let actual_cost := (agents_invoked.length : ℚ) * (cfg.estimated_cost_per_agent.getD (1 / 10))
  let critical_skipped := m.critical_agents.filter fun a => decide (a ∈ agents_skipped)
  let success := critical_skipped.isEmpty
  let rate := completion_rate plan.agents_to_invoke agents_invoked
  let issues :=
    (if critical_skipped.isEmpty then [] else [Issue.criticalSkipped critical_skipped])
    ++ (if rate < mkRat 9 10 then [Issue.lowCompletion rate] else [])
  { plan := plan
    agents_invoked := agents_invoked
    agents_failed := agents_failed
    agents_skipped := agents_skipped
    actual_time := 0
    actual_cost := actual_cost
    success := success
    issues := issues }

/-- The confirmation level demanded by `get_confirmation` (source lines
389–410): immediate acceptance when the plan needs no confirmation, the
double-confirmation prompt above the double threshold, the single prompt
otherwise. -/
inductive ConfirmLevel where
  | nothing
  | single
  | double
deriving DecidableEq

/-- Pure decision structure of `InvocationVerifier.get_confirmation`. -/
def get_confirmation_level (cfg : Config) (plan : InvocationPlan) : ConfirmLevel :=
  if !plan.requires_confirmation then .nothing
  else if plan.agents_to_invoke.length > doubleConfirmThreshold cfg then .double
  else .single

/-! ## Concrete fixtures for counterexamples and witnesses -/

/-- A configuration with every optional field absent and every mapping
empty (all source-level `.get` defaults apply). -/
def emptyConfig : Config :=
  { invocation_aliases := []
    invocation_rules := []
    presets := []
    complete_groups := []
    require_confirmation_above := none
    require_double_confirmation_above := none
    time_per_agent := none
    time_overhead := none
    estimated_cost_per_agent := none }

/-- An auxiliary plan with a given agent list and neutral remaining
fields (the verifier reads only `agents_to_invoke`). -/
def mkPlan (agents : List String) : InvocationPlan :=
  { request_text := "r"
    request_type := "custom"
    agents_to_invoke := agents
    estimated_time := 0
    estimated_cost := 0
    requires_confirmation := false
    critical_agents_included := true
    warnings := [] }

/-- Manifest of the five-agent scenario: agents a–e, only a critical. -/
def mScenario : Manifest :=
  { agents := ["a", "b", "c", "d", "e"], critical_agents := ["a"] }

/-- Plan of the five-agent scenario. -/
def planScenario : InvocationPlan := mkPlan ["a", "b", "c", "d", "e"]

/-- Manifest for the critical-via-expansion scenario: x is critical. -/
def mExpand : Manifest := { agents := ["t1", "x"], critical_agents := ["x"] }

/-- Configuration for the critical-via-expansion scenario: alias "T"
selects only t1, and a complete group triggered by t1 pulls in x. -/
def cfgExpand : Config :=
  { emptyConfig with
    invocation_aliases := [("T", Phrases.single "alpha")]
    invocation_rules := [("T", AgentsSpec.lit ["t1"])]
    complete_groups := [("g", { trigger_agents := ["t1"], must_include := ["x"] })] }

/-- Manifest whose only critical agent is selected by the default-all
fallback. -/
def mAllCrit : Manifest := { agents := ["a", "b"], critical_agents := ["a"] }

/-- A plan with no agents at all. -/
def planNoAgents : InvocationPlan := mkPlan []

/-- Manifest with no critical agents. -/
def mNoCrit : Manifest := { agents := ["a"], critical_agents := [] }

/-- Configuration whose rule for the fallback tag "custom" lists agent b
twice and that configures no complete groups. -/
def cfgDupRule : Config :=
  { emptyConfig with invocation_rules := [("custom", AgentsSpec.lit ["b", "b"])] }

/-- Configuration whose "custom" rule lists t twice and whose complete
group, triggered by t, adds x — so the dedup branch runs. -/
def cfgDupExpand : Config :=
  { emptyConfig with
    invocation_rules := [("custom", AgentsSpec.lit ["t", "t"])]
    complete_groups := [("g", { trigger_agents := ["t"], must_include := ["x"] })] }

/-- Configuration whose "custom" rule selects t and x and whose complete
group, triggered by t, requires x and y (y missing, so it is added). -/
def cfgGroup : Config :=
  { emptyConfig with
    invocation_rules := [("custom", AgentsSpec.lit ["t", "x"])]
    complete_groups := [("g", { trigger_agents := ["t"], must_include := ["x", "y"] })] }

/-- Configuration with two alias groups whose phrase sets overlap: the
first is hit only by the two-word phrase, the second by the single word. -/
def cfgAliases : Config :=
  { emptyConfig with
    invocation_aliases :=
      [("first", Phrases.many ["deep dive"]), ("second", Phrases.single "dive")] }

/-- Configuration with the scenario thresholds of the confirmation claim:
confirmation above 10 agents, double confirmation above 25. -/
def cfgThresholds : Config :=
  { emptyConfig with
    require_confirmation_above := some 10
    require_double_confirmation_above := some 25 }

/-- Manifest with thirty agents (used with the default-all fallback). -/
def mThirty : Manifest :=
  { agents :=
      ["g01", "g02", "g03", "g04", "g05", "g06", "g07", "g08", "g09", "g10",
       "g11", "g12", "g13", "g14", "g15", "g16", "g17", "g18", "g19", "g20",
       "g21", "g22", "g23", "g24", "g25", "g26", "g27", "g28", "g29", "g30"]
    critical_agents := [] }

/-! ## Helper lemmas -/

/-- The alias loop returns the tag of the first group whose phrases hit
the lowered request, whatever follows it. -/
theorem find_alias_of_first_hit (l tag : String) (ph : Phrases)
    (post : List (String × Phrases)) :
    ∀ pre : List (String × Phrases),
      (∀ q ∈ pre, phrases_hit l q.2 = false) → phrases_hit l ph = true →
      find_alias l (pre ++ (tag, ph) :: post) = some tag := by
  intro pre
  induction pre with
  | nil =>
    intro _ hph
    simp [find_alias, hph]
  | cons q rest ih =>
    intro hpre hph
    have hq : phrases_hit l q.2 = false := hpre q (by simp)
    cases q with
    | mk qtag qph =>
      simp only [List.cons_append, find_alias]
      simp only [phrases_hit] at hq ⊢
      simp [hq]
      exact ih (fun r hr => hpre r (by simp [hr])) hph

/-! ## Claims about the request classifier -/

/-- C7: for every request type that is a key of neither the invocation
rules nor the presets, the selector returns every agent identifier known
to the roster, with no error (the function is total). -/
theorem default_all_on_unknown_type (cfg : Config) (m : Manifest) (rt : String)
    (hrule : cfg.invocation_rules.lookup rt = none)
    (hpreset : cfg.presets.lookup rt = none) :
    get_agents_for_request cfg m rt = m.agents := by
  simp [get_agents_for_request, hrule, hpreset]

/-- Witness for C7 at a concrete unknown request type. -/
theorem default_all_on_unknown_type_witness :
    get_agents_for_request emptyConfig mAllCrit "unknown_kind" = mAllCrit.agents :=
  default_all_on_unknown_type emptyConfig mAllCrit "unknown_kind" rfl rfl

/-- C8: if the configured alias list splits as `pre ++ (tag, ph) :: post`
where no group of `pre` is hit by the request text and `ph` is hit
(case-insensitive substring containment), then `parse_request` returns
`tag`: alias groups are tried in declared order, the first match wins, and
the domain-keyword and generic fallbacks are never consulted. -/
theorem alias_first_match_wins (cfg : Config) (text : String)
    (pre post : List (String × Phrases)) (tag : String) (ph : Phrases)
    (hsplit : cfg.invocation_aliases = pre ++ (tag, ph) :: post)
    (hpre : ∀ q ∈ pre, phrases_hit (strToLower text) q.2 = false)
    (hph : phrases_hit (strToLower text) ph = true) :
    parse_request cfg text = tag := by
  have h := find_alias_of_first_hit (strToLower text) tag ph post pre hpre hph
  simp [parse_request, hsplit, h]

/-- Witness for C8: the second alias group wins on a text that misses the
first group's phrase but contains the second's, in different casing and
with surrounding words. -/
theorem alias_first_match_wins_witness :
    parse_request cfgAliases "Quick DIVE now" = "second" :=
  alias_first_match_wins cfgAliases "Quick DIVE now"
    [("first", Phrases.many ["deep dive"])] [] "second" (Phrases.single "dive")
    rfl (by decide) (by decide)

/-- C10: in the domain-keyword fallback, keywords are raw substrings of
the lowercased text: when no alias matches and the text contains none of
security, leadership, executive, technical-with-review, product, but does
contain the letter sequence "ai" anywhere, the classifier returns the
ai/ml review tag. -/
theorem ai_substring_fallback (cfg : Config) (text : String)
    (halias : find_alias (strToLower text) cfg.invocation_aliases = none)
    (hsec : strContains (strToLower text) "security" = false)
    (hlead : strContains (strToLower text) "leadership" = false)
    (hexec : strContains (strToLower text) "executive" = false)
    (htech : (strContains (strToLower text) "technical" && strContains (strToLower text) "review") = false)
    (hprod : strContains (strToLower text) "product" = false)
    (hai : strContains (strToLower text) "ai" = true) :
    parse_request cfg text = "ai_ml_review" := by
  simp [parse_request, halias, hsec, hlead, hexec, htech, hprod, hai]

/-- Witness for C10: the request "Maintain the dashboard" contains "ai"
only inside the word "maintain", yet classifies as ai/ml review. -/
theorem ai_substring_fallback_witness :
    parse_request emptyConfig "Maintain the dashboard" = "ai_ml_review" :=
  ai_substring_fallback emptyConfig "Maintain the dashboard"
    rfl (by decide) (by decide) (by decide) (by decide) (by decide) (by decide)

/-- A filtered list is non-empty exactly when some member satisfies the
predicate. -/
theorem filter_isEmpty_false_iff {α : Type} (l : List α) (p : α → Bool) :
    (l.filter p).isEmpty = false ↔ ∃ a ∈ l, p a = true := by
  rw [Bool.eq_false_iff, Ne, List.isEmpty_iff, List.filter_eq_nil_iff]
  push_neg
  simp

/-! ## Claims about the verifier -/

/-- C1 counterexample: in the five-agent scenario (a critical, four of
five invoked, the critical agent among them) the verifier returns
`success = true` — not `false` as the claim requires — even though the
completion rate 4/5 is below the 9/10 threshold and a low-completion
issue is recorded. -/
theorem success_ignores_low_completion_counterexample :
    (verify_invocation_completeness emptyConfig mScenario planScenario
        ["a", "b", "c", "d"]).success = true ∧
    Issue.lowCompletion (mkRat 4 5) ∈
      (verify_invocation_completeness emptyConfig mScenario planScenario
        ["a", "b", "c", "d"]).issues ∧
    mkRat 4 5 < mkRat 9 10 := by
  refine ⟨by decide, by decide, by decide⟩

/-- C1 (amended): `success` is `false` exactly when some roster-declared
critical agent is in `agents_skipped`; a completion rate below 9/10
contributes a low-completion issue but never affects `success`. -/
theorem verify_success_characterization (cfg : Config) (m : Manifest)
    (plan : InvocationPlan) (actually_invoked : List String) :
    ((verify_invocation_completeness cfg m plan actually_invoked).success = false ↔
      ∃ c ∈ m.critical_agents,
        c ∈ (verify_invocation_completeness cfg m plan actually_invoked).agents_skipped) ∧
    (completion_rate plan.agents_to_invoke
        (verify_invocation_completeness cfg m plan actually_invoked).agents_invoked <
          mkRat 9 10 →
      Issue.lowCompletion (completion_rate plan.agents_to_invoke
          (verify_invocation_completeness cfg m plan actually_invoked).agents_invoked) ∈
        (verify_invocation_completeness cfg m plan actually_invoked).issues) := by
  constructor
  · simp only [verify_invocation_completeness]
    rw [filter_isEmpty_false_iff]
    simp
  · intro h
    simp only [verify_invocation_completeness] at h ⊢
    simp [if_pos h]

/-- Witness for C1 (amended) at the five-agent scenario. -/
theorem verify_success_characterization_witness :
    Issue.lowCompletion (completion_rate planScenario.agents_to_invoke
        (verify_invocation_completeness emptyConfig mScenario planScenario
          ["a", "b", "c", "d"]).agents_invoked) ∈
      (verify_invocation_completeness emptyConfig mScenario planScenario
        ["a", "b", "c", "d"]).issues :=
  (verify_success_characterization emptyConfig mScenario planScenario
    ["a", "b", "c", "d"]).2 (by decide)

/-- C3 counterexample: on a plan with no agents and an empty
actually-invoked set the issues list is not empty — the verifier records
a low-completion issue (rate 0 is below the threshold). -/
theorem empty_plan_issue_counterexample :
    (verify_invocation_completeness emptyConfig mAllCrit planNoAgents []).issues =
      [Issue.lowCompletion 0] ∧
    (verify_invocation_completeness emptyConfig mAllCrit planNoAgents []).issues ≠ [] := by
  refine ⟨by decide, by decide⟩

/-- C3 (amended): the verifier on a plan with an empty agent set and an
empty actually-invoked set raises no exception (it is a total function)
and returns `completion_rate = 0` and `success = true`, with an issues
list holding exactly one low-completion entry of rate 0. -/
theorem verify_empty_plan (cfg : Config) (m : Manifest) (plan : InvocationPlan)
    (hempty : plan.agents_to_invoke = []) :
    (verify_invocation_completeness cfg m plan []).success = true ∧
    completion_rate plan.agents_to_invoke
      (verify_invocation_completeness cfg m plan []).agents_invoked = 0 ∧
    (verify_invocation_completeness cfg m plan []).issues = [Issue.lowCompletion 0] := by
  simp [verify_invocation_completeness, completion_rate, hempty]
  decide

/-- Witness for C3 (amended) at a concrete empty plan. -/
theorem verify_empty_plan_witness :
    (verify_invocation_completeness emptyConfig mAllCrit planNoAgents []).success = true ∧
    completion_rate planNoAgents.agents_to_invoke
      (verify_invocation_completeness emptyConfig mAllCrit planNoAgents []).agents_invoked = 0 ∧
    (verify_invocation_completeness emptyConfig mAllCrit planNoAgents []).issues =
      [Issue.lowCompletion 0] :=
  verify_empty_plan emptyConfig mAllCrit planNoAgents rfl

/-- C4 counterexample: the verifier accepts no failed set, so even when
the execution layer regards agent a as attempted-but-failed, the result
reports `agents_failed = []` and places a in `agents_skipped`, contrary
to the claimed separate reporting. -/
theorem no_failed_partition_counterexample :
    (verify_invocation_completeness emptyConfig mNoCrit (mkPlan ["a"]) []).agents_failed = [] ∧
    "a" ∈ (verify_invocation_completeness emptyConfig mNoCrit (mkPlan ["a"]) []).agents_skipped := by
  refine ⟨by decide, by decide⟩

/-- C4 (amended): the verifier takes no failed-set input; `agents_failed`
is always empty, and every planned agent lands in exactly one of
`agents_invoked` or `agents_skipped`. -/
theorem verify_partition (cfg : Config) (m : Manifest) (plan : InvocationPlan)
    (actually_invoked : List String) :
    (verify_invocation_completeness cfg m plan actually_invoked).agents_failed = [] ∧
    ∀ a ∈ plan.agents_to_invoke,
      (a ∈ (verify_invocation_completeness cfg m plan actually_invoked).agents_invoked ∨
        a ∈ (verify_invocation_completeness cfg m plan actually_invoked).agents_skipped) ∧
      ¬(a ∈ (verify_invocation_completeness cfg m plan actually_invoked).agents_invoked ∧
        a ∈ (verify_invocation_completeness cfg m plan actually_invoked).agents_skipped) := by
  refine ⟨rfl, ?_⟩
  intro a ha
  by_cases h : a ∈ actually_invoked
  · simp [verify_invocation_completeness, List.mem_filter, ha, h]
  · simp [verify_invocation_completeness, List.mem_filter, ha, h]

/-- Witness for C4 (amended): the skipped agent e of the five-agent
scenario is in exactly one partition class. -/
theorem verify_partition_witness :
    (verify_invocation_completeness emptyConfig mScenario planScenario
        ["a", "b", "c", "d"]).agents_failed = [] ∧
    (("e" ∈ (verify_invocation_completeness emptyConfig mScenario planScenario
          ["a", "b", "c", "d"]).agents_invoked ∨
      "e" ∈ (verify_invocation_completeness emptyConfig mScenario planScenario
          ["a", "b", "c", "d"]).agents_skipped) ∧
     ¬("e" ∈ (verify_invocation_completeness emptyConfig mScenario planScenario
          ["a", "b", "c", "d"]).agents_invoked ∧
       "e" ∈ (verify_invocation_completeness emptyConfig mScenario planScenario
          ["a", "b", "c", "d"]).agents_skipped)) :=
  ⟨(verify_partition emptyConfig mScenario planScenario ["a", "b", "c", "d"]).1,
   (verify_partition emptyConfig mScenario planScenario ["a", "b", "c", "d"]).2 "e" (by decide)⟩

/-! ## Claims about the plan builder -/

/-- Membership in the built plan's agent list follows from membership in
the selector output or in the completeness suggestions. -/
theorem mem_create_agents (cfg : Config) (m : Manifest) (text : String) (x : String)
    (hx : x ∈ get_agents_for_request cfg m (parse_request cfg text) ∨
      x ∈ check_group_completeness cfg (get_agents_for_request cfg m (parse_request cfg text))) :
    x ∈ (create_invocation_plan cfg m text).agents_to_invoke := by
  simp only [create_invocation_plan]
  by_cases hempty :
      (check_group_completeness cfg
        (get_agents_for_request cfg m (parse_request cfg text))).isEmpty
  · rw [List.isEmpty_iff] at hempty
    rcases hx with hx | hx
    · simp [hempty, hx]
    · rw [hempty] at hx
      exact absurd hx (List.not_mem_nil x)
  · rw [Bool.not_eq_true] at hempty
    simp only [hempty, Bool.false_eq_true, if_false, List.mem_dedup, List.mem_append]
    exact hx

/-- C2 counterexample: with a rule selecting only t1 and a complete group
that adds the critical agent x, the built plan has x among its final
agents yet reports `critical_agents_included = false` — the flag is
computed before group expansion. -/
theorem critical_flag_counterexample :
    (create_invocation_plan cfgExpand mExpand "alpha please").critical_agents_included = false ∧
    "x" ∈ (create_invocation_plan cfgExpand mExpand "alpha please").agents_to_invoke := by
  refine ⟨by decide, by decide⟩

/-- C2 (amended): `critical_agents_included` is true exactly when every
roster-declared critical agent is a member of the selector output before
complete-group expansion. -/
theorem critical_flag_pre_expansion (cfg : Config) (m : Manifest) (text : String) :
    (create_invocation_plan cfg m text).critical_agents_included = true ↔
      ∀ c ∈ m.critical_agents,
        c ∈ get_agents_for_request cfg m (parse_request cfg text) := by
  simp only [create_invocation_plan, check_critical_agents]
  rw [List.isEmpty_iff, List.filter_eq_nil_iff]
  simp

/-- Witness for C2 (amended): with the default-all selection the critical
agent is selected up front and the flag is true. -/
theorem critical_flag_pre_expansion_witness :
    (create_invocation_plan emptyConfig mAllCrit "zzz").critical_agents_included = true :=
  (critical_flag_pre_expansion emptyConfig mAllCrit "zzz").mpr (by decide)

/-- C5 counterexample: a rule whose literal agent list repeats b, with no
complete group firing, yields a plan whose agent list is exactly
`["b", "b"]` — the duplicate is kept. -/
theorem duplicates_kept_counterexample :
    (create_invocation_plan cfgDupRule mAllCrit "zzz").agents_to_invoke = ["b", "b"] ∧
    ¬ (create_invocation_plan cfgDupRule mAllCrit "zzz").agents_to_invoke.Nodup := by
  refine ⟨by decide, by decide⟩

/-- C5 (amended): duplicates are removed only when complete-group
expansion adds at least one identifier; when it adds none the selector's
list is kept verbatim (duplicates included). -/
theorem dedup_only_on_expansion (cfg : Config) (m : Manifest) (text : String) :
    (check_group_completeness cfg
        (get_agents_for_request cfg m (parse_request cfg text)) ≠ [] →
      (create_invocation_plan cfg m text).agents_to_invoke.Nodup) ∧
    (check_group_completeness cfg
        (get_agents_for_request cfg m (parse_request cfg text)) = [] →
      (create_invocation_plan cfg m text).agents_to_invoke =
        get_agents_for_request cfg m (parse_request cfg text)) := by
  constructor
  · intro h
    have hempty : (check_group_completeness cfg
        (get_agents_for_request cfg m (parse_request cfg text))).isEmpty = false := by
      rw [Bool.eq_false_iff, Ne, List.isEmpty_iff]
      exact h
    simp only [create_invocation_plan, hempty, Bool.false_eq_true, if_false]
    exact List.nodup_dedup _
  · intro h
    have hempty : (check_group_completeness cfg
        (get_agents_for_request cfg m (parse_request cfg text))).isEmpty = true := by
      rw [List.isEmpty_iff]
      exact h
    simp only [create_invocation_plan, hempty, if_true]

/-- Witness for C5 (amended): when the group expansion does add an agent,
the duplicate in the rule's literal list is removed. -/
theorem dedup_only_on_expansion_witness :
    (create_invocation_plan cfgDupExpand mNoCrit "zzz").agents_to_invoke.Nodup :=
  (dedup_only_on_expansion cfgDupExpand mNoCrit "zzz").1 (by decide)

/-- C6: if any trigger agent of a configured complete group is in the
selected set, every `must_include` member of that group is in the plan's
final agent list, and each identifier newly added by the expansion is
listed in an added-for-completeness warning of the plan. -/
theorem group_expansion_complete (cfg : Config) (m : Manifest) (text : String)
    (gname : String) (g : GroupConfig)
    (hg : (gname, g) ∈ cfg.complete_groups)
    (htrigger : g.trigger_agents.any
      (fun a => decide (a ∈ get_agents_for_request cfg m (parse_request cfg text))) = true) :
    (∀ r ∈ g.must_include,
      r ∈ (create_invocation_plan cfg m text).agents_to_invoke) ∧
    (∀ x ∈ check_group_completeness cfg
        (get_agents_for_request cfg m (parse_request cfg text)),
      ∃ ids, x ∈ ids ∧
        Warning.addedForCompleteness ids ∈ (create_invocation_plan cfg m text).warnings) := by
  have hsugg : ∀ r ∈ g.must_include,
      r ∉ get_agents_for_request cfg m (parse_request cfg text) →
      r ∈ check_group_completeness cfg
        (get_agents_for_request cfg m (parse_request cfg text)) := by
    intro r hr hnot
    simp only [check_group_completeness, List.mem_dedup, List.mem_flatMap]
    exact ⟨(gname, g), hg, by simp [htrigger, List.mem_filter, hr, hnot]⟩
  constructor
  · intro r hr
    by_cases hin : r ∈ get_agents_for_request cfg m (parse_request cfg text)
    · exact mem_create_agents cfg m text r (Or.inl hin)
    · exact mem_create_agents cfg m text r (Or.inr (hsugg r hr hin))
  · intro x hx
    refine ⟨check_group_completeness cfg
      (get_agents_for_request cfg m (parse_request cfg text)), hx, ?_⟩
    have hne : (check_group_completeness cfg
        (get_agents_for_request cfg m (parse_request cfg text))).isEmpty = false := by
      rw [Bool.eq_false_iff, Ne, List.isEmpty_iff]
      exact List.ne_nil_of_mem hx
    simp [create_invocation_plan, hne]

/-- Witness for C6: the group triggered by t adds the missing member y,
which lands in the final agent list and in the completeness warning. -/
theorem group_expansion_complete_witness :
    "y" ∈ (create_invocation_plan cfgGroup mNoCrit "zzz").agents_to_invoke ∧
    (∃ ids, "y" ∈ ids ∧
      Warning.addedForCompleteness ids ∈ (create_invocation_plan cfgGroup mNoCrit "zzz").warnings) :=
  ⟨(group_expansion_complete cfgGroup mNoCrit "zzz" "g"
      { trigger_agents := ["t"], must_include := ["x", "y"] }
      (by decide) (by decide)).1 "y" (by decide),
   (group_expansion_complete cfgGroup mNoCrit "zzz" "g"
      { trigger_agents := ["t"], must_include := ["x", "y"] }
      (by decide) (by decide)).2 "y" (by decide)⟩

/-! ## Claims about the confirmation gate -/

/-- C9: a built plan requires confirmation exactly when its agent count
exceeds the configured confirmation threshold; with the default
thresholds (10 and 25) the gate demands double confirmation exactly when
the count exceeds 25, and a plan of 30 agents requires confirmation at
level double. -/
theorem confirmation_thresholds (cfg : Config) (m : Manifest) (text : String) :
    ((create_invocation_plan cfg m text).requires_confirmation = true ↔
      (create_invocation_plan cfg m text).agents_to_invoke.length > confirmThreshold cfg) ∧
    (confirmThreshold cfg = 10 → doubleConfirmThreshold cfg = 25 →
      ((get_confirmation_level cfg (create_invocation_plan cfg m text) = ConfirmLevel.double ↔
        (create_invocation_plan cfg m text).agents_to_invoke.length > 25) ∧
       ((create_invocation_plan cfg m text).agents_to_invoke.length = 30 →
        (create_invocation_plan cfg m text).requires_confirmation = true ∧
        get_confirmation_level cfg (create_invocation_plan cfg m text) = ConfirmLevel.double))) := by
  have hreq : (create_invocation_plan cfg m text).requires_confirmation
      = decide ((create_invocation_plan cfg m text).agents_to_invoke.length >
          confirmThreshold cfg) := rfl
  constructor
  · rw [hreq]
    exact decide_eq_true_iff
  · intro h10 h25
    constructor
    · by_cases hlen : (create_invocation_plan cfg m text).agents_to_invoke.length > 25
      · have hlen10 : (create_invocation_plan cfg m text).agents_to_invoke.length >
            confirmThreshold cfg := by omega
        simp [get_confirmation_level, hreq, h25, hlen, hlen10]
      · by_cases hr : (create_invocation_plan cfg m text).requires_confirmation
        · simp [get_confirmation_level, hr, h25, hlen]
        · simp [get_confirmation_level, hr, h25, hlen]
    · intro h30
      have hlen10 : (create_invocation_plan cfg m text).agents_to_invoke.length >
          confirmThreshold cfg := by omega
      have hlen25 : (create_invocation_plan cfg m text).agents_to_invoke.length > 25 := by
        omega
      constructor
      · rw [hreq]
        exact decide_eq_true hlen10
      · simp [get_confirmation_level, hreq, h25, hlen25, hlen10]

/-- Witness for C9 at the scenario of the claim: thresholds 10 and 25, a
thirty-agent plan. -/
theorem confirmation_thresholds_witness :
    (create_invocation_plan cfgThresholds mThirty "zzz").requires_confirmation = true ∧
    get_confirmation_level cfgThresholds
      (create_invocation_plan cfgThresholds mThirty "zzz") = ConfirmLevel.double :=
  ((confirmation_thresholds cfgThresholds mThirty "zzz").2 rfl rfl).2 (by decide)
